import Mathlib

/-!
Shallow embedding of the childcare survey analytics pipeline
(`src/utils.py`) together with proofs about its aggregators.

Conventions used throughout:
* a dataframe row is a `Record`; a dataframe is a `List Record`;
* a cell that may hold NaN is an `Option` value (`none` models NaN/absent);
* float arithmetic is modelled exactly over `ℚ`; the float NaN produced by
  an unguarded `0/0` is modelled as `none`;
* Python `round(x, 1)` (banker's rounding at a decimal place) is modelled by
  `roundHalfEven`.
-/

namespace Childcare

/-- One survey response row, restricted to the columns that the aggregators
under study read.  `none` models a NaN cell. -/
structure Record where
  nps : Option ℚ
  npsLabel : Option String
  responseMonth : String
  npsFeedbackCategories : Option String
  improvementFeedbackCategories : Option String
deriving DecidableEq, BEq, Repr

/-- The seven raw Likert rating columns (`rating_columns` in
`load_and_process_data`).  Their cells hold free text such as
`"5. Strongly Agree"`, not numbers. -/
def rating_columns : List String :=
  ["Ambience And Atmosphere", "Curriculum and Activities",
   "Environment And Facilities", "Information and Experience",
   "Questions", "Nutritious Meals", "Value For Money"]

/-- The loader stores the normalized score of a rating column `c` in a new
column named `c ++ "_Score"` (the f-string in `load_and_process_data`). -/
def score_column (c : String) : String := c ++ "_Score"

/-- The seven derived score columns produced by the Rating Normalizer. -/
def score_columns : List String := rating_columns.map score_column

/-- The `rating_map` dict of `load_and_process_data`. -/
def rating_map (s : String) : Option ℕ :=
  if s = "5. Strongly Agree" then some 5
  else if s = "4. Agree" then some 4
  else if s = "3. Neither Agree nor Disagree" then some 3
  else if s = "2. Disagree" then some 2
  else if s = "1. Strongly Disagree" then some 1
  else none

/-- `Series.map(rating_map)` applied to one cell: a NaN cell stays NaN and
text outside the dict becomes NaN.  No error is ever raised and no zero is
ever produced. -/
def normalize (v : Option String) : Option ℕ := v.bind rating_map

/-- The `metrics` list selected by `create_correlation_heatmap` before
calling `.corr()` — the raw text rating columns, plus `NPS`. -/
def correlation_metrics : List String :=
  ["NPS", "Ambience And Atmosphere", "Curriculum and Activities",
   "Environment And Facilities", "Information and Experience",
   "Questions", "Nutritious Meals", "Value For Money"]

/-- The keys of the `.agg` dict in `create_monthly_trends`. -/
def monthly_trend_columns : List String :=
  ["NPS", "Ambience And Atmosphere", "Curriculum and Activities",
   "Value For Money"]

/-- `(df['NPS Label'] == l).sum()`: the number of rows whose label cell is
exactly the string `l` (a NaN cell compares unequal). -/
def countLabel (df : List Record) (l : String) : ℕ :=
  df.countP (fun r => r.npsLabel == some l)

/-- The value `(count / total) * 100` of one distribution bucket. -/
def pctVal (c t : ℕ) : ℚ := (c : ℚ) / (t : ℚ) * 100

/-- One bucket of `get_nps_distribution`: the source divides by `total`
unguarded, so at `total = 0` the float result is the NaN of `0/0`, modelled
here as `none`. -/
def pctOf (c t : ℕ) : Option ℚ := if t = 0 then none else some (pctVal c t)

/-- The dict returned by `get_nps_distribution`. -/
structure NPSDist where
  Promoters : Option ℚ
  Passives : Option ℚ
  Detractors : Option ℚ
deriving DecidableEq, BEq, Repr

/-- Embedding of `get_nps_distribution`. -/
def get_nps_distribution (df : List Record) : NPSDist :=
  { Promoters := pctOf (countLabel df "Promoter") df.length
    Passives := pctOf (countLabel df "Neutral") df.length
    Detractors := pctOf (countLabel df "Detractor") df.length }

/-- A row whose label cell is one of the three recognized NPS labels. -/
def recognizedLabel (r : Record) : Bool :=
  r.npsLabel == some "Promoter" || r.npsLabel == some "Neutral" ||
    r.npsLabel == some "Detractor"

/-- A record holding only an NPS label, all other cells absent/empty. -/
def mkRecord (label : Option String) : Record :=
  { nps := none, npsLabel := label, responseMonth := "",
    npsFeedbackCategories := none, improvementFeedbackCategories := none }

/-- Python `str.strip(chars)` with a one-character set: drop every leading
and every trailing character satisfying `p`. -/
def stripChar (p : Char → Bool) (s : String) : String :=
  String.mk (((s.toList.dropWhile p).reverse.dropWhile p).reverse)

/-- Python `s.strip('"')`. -/
def stripQuotes (s : String) : String := stripChar (fun c => c == '"') s

/-- The whitespace set of Python `str.strip()`. -/
def pyIsSpace (c : Char) : Bool :=
  c == ' ' || c == '\t' || c == '\n' || c == '\r' || c == '\x0b' || c == '\x0c'

/-- Python `s.strip()`. -/
def stripWS (s : String) : String := stripChar pyIsSpace s

/-- Python `s.lower()` (the data is ASCII). -/
def pyLower (s : String) : String := String.mk (s.toList.map Char.toLower)

/-- Splitting a character list on commas, accumulating the current piece. -/
def splitCommaAux : List Char → List Char → List String
  | cur, [] => [String.mk cur.reverse]
  | cur, c :: cs =>
    if c == ',' then String.mk cur.reverse :: splitCommaAux [] cs
    else splitCommaAux (c :: cur) cs

/-- Python `s.split(',')` (splitting `""` gives `[""]`, as in Python). -/
def splitComma (s : String) : List String := splitCommaAux [] s.toList

/-- `Series.fillna('')` applied to one cell. -/
def fillCat (v : Option String) : String := v.getD ""

/-- The filter of the list comprehension in `analyze_feedback_categories`:
`if cat.strip() and cat.lower() != 'nan'`.  Note the `nan` test is applied
to the raw token, before any stripping. -/
def keepToken (cat : String) : Bool :=
  (!(stripWS cat == "")) && (!(pyLower cat == "nan"))

/-- Tokens contributed by one (already `fillna`-filled) cell in
`analyze_feedback_categories`: rows that are falsy (i.e. `""`) are skipped,
the cell is split on commas, surviving tokens are kept as `cat.strip('"')` —
quotes stripped, whitespace preserved. -/
def rowTokens (row : String) : List String :=
  if row == "" then [] else ((splitComma row).filter keepToken).map stripQuotes

/-- The pooled token list built by `analyze_feedback_categories`: first the
tokens of the `NPS Feedback Categories` column of every row, then those of
the `Improvement Feedback Categories` column. -/
def analyze_feedback_categories_tokens (df : List Record) : List String :=
  ((df.map (fun r => rowTokens (fillCat r.npsFeedbackCategories))).flatten)
    ++ ((df.map (fun r => rowTokens (fillCat r.improvementFeedbackCategories))).flatten)

/-- The final counts of `analyze_feedback_categories`: `value_counts` of the
pooled tokens, with the key `'nan'` removed afterwards (the
`category_counts.index != 'nan'` line). -/
def analyze_feedback_categories_counts (df : List Record) (t : String) : ℕ :=
  if t == "nan" then 0 else (analyze_feedback_categories_tokens df).count t

/-- The in-place effect of `analyze_feedback_categories` on its input table:
the `df[col] = df[col].fillna('')` assignment replaces absent category text
with `''` in both category columns of the caller's dataframe. -/
def analyze_feedback_categories_table (df : List Record) : List Record :=
  df.map (fun r =>
    { r with npsFeedbackCategories := some (fillCat r.npsFeedbackCategories),
             improvementFeedbackCategories := some (fillCat r.improvementFeedbackCategories) })

/-- Tokens contributed by one cell in `get_top_concerns`: the whole cell is
first quote-stripped (`.str.strip('"')` happens before the lambda), then
split on commas; whitespace-only tokens are dropped and each kept token is
`c.strip().strip('"')`.  There is no `'nan'` exclusion here. -/
def concernRowTokens (x : String) : List String :=
  ((splitComma x).filter (fun c => !(stripWS c == ""))).map
    (fun c => stripQuotes (stripWS c))

/-- The pooled concern list built by `get_top_concerns` (improvement column
only). -/
def get_top_concerns_tokens (df : List Record) : List String :=
  (df.map (fun r =>
    concernRowTokens (stripQuotes (fillCat r.improvementFeedbackCategories)))).flatten

/-- Round to the nearest integer, ties to the even integer — the rounding of
Python `round`. -/
def roundHalfEven (q : ℚ) : ℤ :=
  if q - ⌊q⌋ < 1/2 then ⌊q⌋
  else if 1/2 < q - ⌊q⌋ then ⌊q⌋ + 1
  else if ⌊q⌋ % 2 = 0 then ⌊q⌋ else ⌊q⌋ + 1

/-- Python `round(x, 1)`, modelled exactly over `ℚ`. -/
def round1 (q : ℚ) : ℚ := (roundHalfEven (q * 10) : ℚ) / 10

/-- Pandas `.round(2)`, modelled exactly over `ℚ`. -/
def round2 (q : ℚ) : ℚ := (roundHalfEven (q * 100) : ℚ) / 100

/-- Embedding of `calculate_nps_score`: the means of the two boolean masks
are `count/total` (NaN on an empty frame, modelled `none`), and the result
is `round((promoters - detractors) * 100, 1)`. -/
def calculate_nps_score (df : List Record) : Option ℚ :=
  if df.length = 0 then none
  else some (round1 ((((countLabel df "Promoter" : ℚ) / (df.length : ℚ)) -
    ((countLabel df "Detractor" : ℚ) / (df.length : ℚ))) * 100))

/-- Mean of a list of numbers, NaN (`none`) when the list is empty — the
pandas `mean` aggregation over the non-NaN cells of a group. -/
def meanOpt (xs : List ℚ) : Option ℚ :=
  if xs.isEmpty then none else some (xs.sum / (xs.length : ℚ))

/-- Lexicographic strict order on character lists. -/
def ltChars : List Char → List Char → Bool
  | [], [] => false
  | [], _ :: _ => true
  | _ :: _, [] => false
  | a :: as, b :: bs => if a == b then ltChars as bs else a.toNat < b.toNat

/-- Lexicographic strict order on strings (the order pandas sorts group keys
by; lexicographic = chronological for `YYYY-MM` labels). -/
def strLt (a b : String) : Bool := ltChars a.toList b.toList

/-- Insertion step for sorting month labels ascending. -/
def insertMonth (m : String) : List String → List String
  | [] => [m]
  | x :: xs => if strLt x m then x :: insertMonth m xs else m :: x :: xs

/-- Sort month labels ascending (pandas `groupby` sorts group keys). -/
def sortMonths : List String → List String
  | [] => []
  | x :: xs => insertMonth x (sortMonths xs)

/-- Distinct elements of a month-label list, first occurrences kept. -/
def dedupMonths : List String → List String → List String
  | _, [] => []
  | seen, x :: xs =>
    if seen.contains x then dedupMonths seen xs
    else x :: dedupMonths (x :: seen) xs

/-- The ascending list of distinct month keys of the dataframe. -/
def months (df : List Record) : List String :=
  sortMonths (dedupMonths [] (df.map (fun r => r.responseMonth)))

/-- The `NPS` column of the `create_monthly_trends` aggregation: per month
group, the mean of the non-NaN `NPS` cells, rounded to 2 decimals, groups
sorted by month ascending. -/
def npsMonthlyMeans (df : List Record) : List (String × Option ℚ) :=
  (months df).map (fun m =>
    (m, (meanOpt ((df.filter (fun r => r.responseMonth == m)).filterMap
      (fun r => r.nps))).map round2))

/-- The monthly-trends example input of the spec: NPS values 8 and 10 in
month 2024-01 and 6 in month 2024-02. -/
def df4 : List Record :=
  [{ nps := some 8, npsLabel := none, responseMonth := "2024-01",
     npsFeedbackCategories := none, improvementFeedbackCategories := none },
   { nps := some 10, npsLabel := none, responseMonth := "2024-01",
     npsFeedbackCategories := none, improvementFeedbackCategories := none },
   { nps := some 6, npsLabel := none, responseMonth := "2024-02",
     npsFeedbackCategories := none, improvementFeedbackCategories := none }]

/-- The category-aggregator example input of the spec: the cell values
`a, b`, `"c"`, `nan` and the empty string spread across the two tag
fields. -/
def dfC5 : List Record :=
  [{ nps := none, npsLabel := none, responseMonth := "",
     npsFeedbackCategories := some "a, b",
     improvementFeedbackCategories := some "\"c\"" },
   { nps := none, npsLabel := none, responseMonth := "",
     npsFeedbackCategories := some "nan",
     improvementFeedbackCategories := some "" }]

/-- A record set whose improvement-feedback cell holds the list `a, nan`. -/
def dfC7 : List Record :=
  [{ nps := none, npsLabel := none, responseMonth := "",
     npsFeedbackCategories := none,
     improvementFeedbackCategories := some "a, nan" }]

/-- A record set whose improvement-feedback cell holds `a, nan,  ` (with a
trailing whitespace-only item). -/
def dfC7b : List Record :=
  [{ nps := none, npsLabel := none, responseMonth := "",
     npsFeedbackCategories := none,
     improvementFeedbackCategories := some "a, nan,  " }]

/-- Seven rows: one Promoter and six Neutral. -/
def df7 : List Record :=
  mkRecord (some "Promoter") :: List.replicate 6 (mkRecord (some "Neutral"))

/-- A single Promoter row. -/
def dfP : List Record := [mkRecord (some "Promoter")]

/-- One Promoter row and one row with the unrecognized label `Other`. -/
def dfPO : List Record := [mkRecord (some "Promoter"), mkRecord (some "Other")]

/-- A record whose two category cells are both present (non-NaN). -/
def recFilled : Record :=
  { nps := none, npsLabel := none, responseMonth := "",
    npsFeedbackCategories := some "x", improvementFeedbackCategories := some "" }

/-! Helper lemmas (shared, not tied to a single claim). -/

/-- Each row contributes exactly one unit: to one of the three label
buckets, or to the unrecognized remainder. -/
lemma label_weight (r : Record) :
    ((if r.npsLabel == some "Promoter" then 1 else 0) : ℕ) +
      (if r.npsLabel == some "Neutral" then 1 else 0) +
      (if r.npsLabel == some "Detractor" then 1 else 0) +
      (if !(recognizedLabel r) then 1 else 0) = 1 := by
  unfold recognizedLabel
  by_cases h1 : r.npsLabel = some "Promoter" <;>
    by_cases h2 : r.npsLabel = some "Neutral" <;>
      by_cases h3 : r.npsLabel = some "Detractor" <;>
        simp_all

/-- The three bucket counts plus the unrecognized count partition the rows. -/
lemma count_partition (df : List Record) :
    countLabel df "Promoter" + countLabel df "Neutral" +
      countLabel df "Detractor" +
      df.countP (fun r => !(recognizedLabel r)) = df.length := by
  induction df with
  | nil => rfl
  | cons r t ih =>
    have hw := label_weight r
    simp only [countLabel, List.countP_cons, List.length_cons] at ih ⊢
    omega

lemma countLabel_le_length (df : List Record) (l : String) :
    countLabel df l ≤ df.length :=
  List.countP_le_length _

lemma pctVal_nonneg (c t : ℕ) : 0 ≤ pctVal c t := by
  unfold pctVal
  positivity

lemma pctVal_le_100 (c t : ℕ) (hc : c ≤ t) (ht : t ≠ 0) : pctVal c t ≤ 100 := by
  unfold pctVal
  have htQ : (0 : ℚ) < t := by exact_mod_cast Nat.pos_of_ne_zero ht
  have hcQ : (c : ℚ) ≤ t := by exact_mod_cast hc
  calc (c : ℚ) / t * 100 ≤ (t : ℚ) / t * 100 := by gcongr
    _ = 100 := by rw [div_self (ne_of_gt htQ)]; ring

lemma counts_all_recognized (df : List Record)
    (hall : df.all recognizedLabel = true) :
    countLabel df "Promoter" + countLabel df "Neutral" +
      countLabel df "Detractor" = df.length := by
  have h0 : df.countP (fun r => !(recognizedLabel r)) = 0 := by
    rw [List.countP_eq_zero]
    intro r hr
    have hr2 := (List.all_eq_true.mp hall) r hr
    simp [hr2]
  have hp := count_partition df
  omega

lemma counts_lt_of_unrecognized (df : List Record)
    (hex : df.any (fun r => !(recognizedLabel r)) = true) :
    countLabel df "Promoter" + countLabel df "Neutral" +
      countLabel df "Detractor" < df.length := by
  have hpos : 0 < df.countP (fun r => !(recognizedLabel r)) := by
    rw [List.countP_pos_iff]
    obtain ⟨r, hr, hfr⟩ := List.any_eq_true.mp hex
    exact ⟨r, hr, hfr⟩
  have hp := count_partition df
  omega

lemma pct_sum_eq (cP cN cD t : ℕ) (ht : t ≠ 0) (hsum : cP + cN + cD = t) :
    pctVal cP t + pctVal cN t + pctVal cD t = 100 := by
  have htQ : ((t : ℚ)) ≠ 0 := by exact_mod_cast ht
  have hq : (cP : ℚ) + cN + cD = t := by exact_mod_cast hsum
  unfold pctVal
  field_simp
  linarith

lemma pct_sum_lt (cP cN cD t : ℕ) (ht : t ≠ 0) (hsum : cP + cN + cD < t) :
    pctVal cP t + pctVal cN t + pctVal cD t < 100 := by
  have htQ : (0 : ℚ) < t := by exact_mod_cast Nat.pos_of_ne_zero ht
  have hq : (cP : ℚ) + cN + cD < t := by exact_mod_cast hsum
  unfold pctVal
  rw [div_mul_eq_mul_div, div_mul_eq_mul_div, div_mul_eq_mul_div,
    div_add_div_same, div_add_div_same, div_lt_iff₀ htQ]
  linarith

/-- On a non-empty frame every bucket of the distribution is a real
percentage (no NaN). -/
lemma get_nps_distribution_of_ne_nil (df : List Record) (hne : df ≠ []) :
    get_nps_distribution df =
      ⟨some (pctVal (countLabel df "Promoter") df.length),
       some (pctVal (countLabel df "Neutral") df.length),
       some (pctVal (countLabel df "Detractor") df.length)⟩ := by
  have ht : df.length ≠ 0 := fun h => hne (List.length_eq_zero.mp h)
  simp only [get_nps_distribution, pctOf, if_neg ht]

lemma roundHalfEven_ge_floor (q : ℚ) : ⌊q⌋ ≤ roundHalfEven q := by
  unfold roundHalfEven
  split
  · exact le_refl _
  · split
    · omega
    · split <;> omega

lemma roundHalfEven_le_half (q : ℚ) : (roundHalfEven q : ℚ) ≤ q + 1/2 := by
  unfold roundHalfEven
  have hfl := Int.floor_le q
  by_cases h1 : q - (⌊q⌋ : ℚ) < 1/2
  · rw [if_pos h1]
    linarith
  · rw [if_neg h1]
    push_neg at h1
    by_cases h2 : (1 : ℚ)/2 < q - (⌊q⌋ : ℚ)
    · rw [if_pos h2]
      push_cast
      linarith
    · rw [if_neg h2]
      by_cases h3 : ⌊q⌋ % 2 = 0
      · rw [if_pos h3]
        linarith
      · rw [if_neg h3]
        push_cast
        linarith

lemma round1_bounds (x : ℚ) (hl : -100 ≤ x) (hu : x ≤ 100) :
    -100 ≤ round1 x ∧ round1 x ≤ 100 := by
  unfold round1
  constructor
  · have hfl : (-1000 : ℤ) ≤ ⌊x * 10⌋ := by
      apply Int.le_floor.mpr
      push_cast
      linarith
    have h1 : (-1000 : ℤ) ≤ roundHalfEven (x * 10) :=
      le_trans hfl (roundHalfEven_ge_floor _)
    have h2 : ((-1000 : ℤ) : ℚ) ≤ (roundHalfEven (x * 10) : ℚ) := by
      exact_mod_cast h1
    push_cast at h2
    linarith
  · have h2 : (roundHalfEven (x * 10) : ℚ) ≤ x * 10 + 1/2 :=
      roundHalfEven_le_half _
    have h3 : (roundHalfEven (x * 10) : ℚ) < 1001 := by linarith
    have h4 : roundHalfEven (x * 10) < 1001 := by exact_mod_cast h3
    have h5 : (roundHalfEven (x * 10) : ℚ) ≤ 1000 := by
      exact_mod_cast Int.lt_add_one_iff.mp h4
    linarith

/-! Claim theorems. -/

/-- Claim C1: the correlation aggregator is claimed to build the 8x8 Pearson
matrix over NPS and the seven derived rating-score columns.  The code
instead selects NPS plus the seven raw Likert text columns: its metric list
is exactly `"NPS" :: rating_columns` and contains none of the seven
`*_Score` columns, so the matrix over the score columns is never computed
(the raw columns hold free text, which has no Pearson correlation). -/
theorem correlation_metrics_are_raw_columns :
    correlation_metrics = "NPS" :: rating_columns ∧
    score_columns.filter (fun c => correlation_metrics.contains c) = [] := by
  decide

/-- Claim C2 counterexample: a single row whose NPS Label is `Other` is
counted in the total but in no bucket, so the three percentages are 0, 0, 0
and their sum is 0, strictly below the claimed 100. -/
theorem nps_distribution_sum_counterexample :
    get_nps_distribution [mkRecord (some "Other")] =
      ⟨some 0, some 0, some 0⟩ ∧
    (0 : ℚ) + 0 + 0 < 100 := by
  constructor
  · have h1 : countLabel [mkRecord (some "Other")] "Promoter" = 0 := by decide
    have h2 : countLabel [mkRecord (some "Other")] "Neutral" = 0 := by decide
    have h3 : countLabel [mkRecord (some "Other")] "Detractor" = 0 := by decide
    simp only [get_nps_distribution, h1, h2, h3]
    norm_num [pctOf, pctVal]
  · norm_num

/-- Claim C2 (amended): when the record set is non-empty and every row's
NPS Label is one of Promoter, Neutral, Detractor, the three percentages
returned by `get_nps_distribution` are each in `[0, 100]` and sum exactly
to 100. -/
theorem nps_distribution_sums_to_100 (df : List Record) (hne : df ≠ [])
    (hall : df.all recognizedLabel = true) :
    get_nps_distribution df =
      ⟨some (pctVal (countLabel df "Promoter") df.length),
       some (pctVal (countLabel df "Neutral") df.length),
       some (pctVal (countLabel df "Detractor") df.length)⟩ ∧
    0 ≤ pctVal (countLabel df "Promoter") df.length ∧
    pctVal (countLabel df "Promoter") df.length ≤ 100 ∧
    0 ≤ pctVal (countLabel df "Neutral") df.length ∧
    pctVal (countLabel df "Neutral") df.length ≤ 100 ∧
    0 ≤ pctVal (countLabel df "Detractor") df.length ∧
    pctVal (countLabel df "Detractor") df.length ≤ 100 ∧
    pctVal (countLabel df "Promoter") df.length +
      pctVal (countLabel df "Neutral") df.length +
      pctVal (countLabel df "Detractor") df.length = 100 := by
  have ht : df.length ≠ 0 := fun h => hne (List.length_eq_zero.mp h)
  exact ⟨get_nps_distribution_of_ne_nil df hne,
    pctVal_nonneg _ _, pctVal_le_100 _ _ (countLabel_le_length df _) ht,
    pctVal_nonneg _ _, pctVal_le_100 _ _ (countLabel_le_length df _) ht,
    pctVal_nonneg _ _, pctVal_le_100 _ _ (countLabel_le_length df _) ht,
    pct_sum_eq _ _ _ _ ht (counts_all_recognized df hall)⟩

/-- Witness for the amended C2 theorem at a one-Promoter record set. -/
theorem nps_distribution_sums_to_100_witness :
    get_nps_distribution dfP =
      ⟨some (pctVal (countLabel dfP "Promoter") dfP.length),
       some (pctVal (countLabel dfP "Neutral") dfP.length),
       some (pctVal (countLabel dfP "Detractor") dfP.length)⟩ ∧
    0 ≤ pctVal (countLabel dfP "Promoter") dfP.length ∧
    pctVal (countLabel dfP "Promoter") dfP.length ≤ 100 ∧
    0 ≤ pctVal (countLabel dfP "Neutral") dfP.length ∧
    pctVal (countLabel dfP "Neutral") dfP.length ≤ 100 ∧
    0 ≤ pctVal (countLabel dfP "Detractor") dfP.length ∧
    pctVal (countLabel dfP "Detractor") dfP.length ≤ 100 ∧
    pctVal (countLabel dfP "Promoter") dfP.length +
      pctVal (countLabel dfP "Neutral") dfP.length +
      pctVal (countLabel dfP "Detractor") dfP.length = 100 :=
  nps_distribution_sums_to_100 dfP (by decide) (by decide)

/-- Claim C3 (code bug): on zero rows `get_nps_distribution` divides the
bucket counts by `total = 0` with no guard; the float `0/0` is NaN
(modelled `none`), so the result is all-NaN and differs from the all-zero
result the claim requires (no exception is raised). -/
theorem nps_distribution_empty_all_nan :
    get_nps_distribution ([] : List Record) = ⟨none, none, none⟩ ∧
    ((⟨none, none, none⟩ : NPSDist) == ⟨some 0, some 0, some 0⟩) = false := by
  constructor
  · rfl
  · decide

/-- Claim C4 (code bug): `create_monthly_trends` aggregates the raw Likert
text columns — its agg keys contain none of the `*_Score` columns and three
of them are raw rating columns, whose free-text cells have no mean.  The
`NPS` column is numeric, and on it the grouping behaves as the claim's
example states: months sorted ascending with per-month means. -/
theorem monthly_trends_raw_columns_and_nps_example :
    monthly_trend_columns.filter (fun c => score_columns.contains c) = [] ∧
    monthly_trend_columns.filter (fun c => rating_columns.contains c) =
      ["Ambience And Atmosphere", "Curriculum and Activities",
       "Value For Money"] ∧
    npsMonthlyMeans df4 = [("2024-01", some 9), ("2024-02", some 6)] := by
  refine ⟨by decide, by decide, ?_⟩
  have h1 : months df4 = ["2024-01", "2024-02"] := by decide
  have h2 : (df4.filter (fun r => r.responseMonth == "2024-01")).filterMap
      (fun r => r.nps) = [8, 10] := by decide
  have h3 : (df4.filter (fun r => r.responseMonth == "2024-02")).filterMap
      (fun r => r.nps) = [6] := by decide
  simp only [npsMonthlyMeans, h1, List.map_cons, List.map_nil, h2, h3]
  norm_num [meanOpt, round2, roundHalfEven]

/-- Claim C5 counterexample: on the spec's own example rows the code keeps
the token of `a, b` after the comma as `" b"` — `cat.strip('"')` removes
quotes but not whitespace — so the multiset contains `" b"` (count 1) and
not `"b"` (count 0), contradicting the claimed tokens a, b, c. -/
theorem feedback_tokens_counterexample :
    analyze_feedback_categories_tokens dfC5 = ["a", " b", "c"] ∧
    analyze_feedback_categories_counts dfC5 "b" = 0 ∧
    analyze_feedback_categories_counts dfC5 " b" = 1 := by
  decide

/-- Claim C5 (amended): the aggregator splits each tag cell on commas,
discards tokens that are whitespace-only or whose raw text equals `nan`
case-insensitively, and strips surrounding quotes — but not whitespace —
from each kept token; on the example rows it yields `a`, `" b"` (leading
space preserved) and `c`, once each, with `nan` and the empty string
excluded. -/
theorem feedback_tokens_amended :
    analyze_feedback_categories_counts dfC5 "a" = 1 ∧
    analyze_feedback_categories_counts dfC5 " b" = 1 ∧
    analyze_feedback_categories_counts dfC5 "c" = 1 ∧
    analyze_feedback_categories_counts dfC5 "nan" = 0 ∧
    analyze_feedback_categories_counts dfC5 "" = 0 ∧
    rowTokens "a, b" = ["a", " b"] := by
  decide

/-- Claim C6: the Rating Normalizer maps each of the five canonical
digit-dot phrases to its score, everything else (NaN, the empty string,
stray text) to an absent value, and every possible output is `none` or a
score in 5..1 — never zero and never an error. -/
theorem rating_normalizer_ok :
    normalize (some "5. Strongly Agree") = some 5 ∧
    normalize (some "4. Agree") = some 4 ∧
    normalize (some "3. Neither Agree nor Disagree") = some 3 ∧
    normalize (some "2. Disagree") = some 2 ∧
    normalize (some "1. Strongly Disagree") = some 1 ∧
    normalize none = none ∧
    normalize (some "") = none ∧
    normalize (some "garbage") = none ∧
    ∀ v : Option String,
      normalize v ∈ [none, some 5, some 4, some 3, some 2, some 1] := by
  refine ⟨by decide, by decide, by decide, by decide, by decide, rfl,
    by decide, by decide, ?_⟩
  intro v
  cases v with
  | none => simp [normalize]
  | some s =>
    show rating_map s ∈ _
    unfold rating_map
    split
    · simp
    · split
      · simp
      · split
        · simp
        · split
          · simp
          · split <;> simp

/-- Witness for C6 at an arbitrary unmapped text value. -/
theorem rating_normalizer_ok_witness :
    normalize (some "legacy text") ∈
      [none, some 5, some 4, some 3, some 2, some 1] :=
  rating_normalizer_ok.2.2.2.2.2.2.2.2 (some "legacy text")

/-- Claim C7 counterexample: `get_top_concerns` has no `nan` filter, so an
improvement cell holding the list `a, nan` contributes the token `nan` with
count 1, contradicting the claim that `nan` is never counted. -/
theorem top_concerns_counterexample :
    get_top_concerns_tokens dfC7 = ["a", "nan"] ∧
    (get_top_concerns_tokens dfC7).count "nan" = 1 := by
  decide

/-- Claim C7 (amended): the top-concerns aggregator uses a parsing rule
that differs from the feedback category aggregator: the whole cell is
quote-stripped, then split on commas; whitespace-only tokens are dropped
and each kept token is whitespace- then quote-stripped; the literal token
`nan` is NOT excluded.  On `a, nan` the two parsers disagree, and a
whitespace-only list item is never counted. -/
theorem top_concerns_amended :
    get_top_concerns_tokens dfC7b = ["a", "nan"] ∧
    rowTokens "a, nan" = ["a", " nan"] ∧
    concernRowTokens "a, nan" = ["a", "nan"] := by
  decide

/-- Claim C8 counterexample: with 7 rows of which one is a Promoter and
none a Detractor, the distribution difference is 100/7, but
`calculate_nps_score` returns `round(100/7, 1) = 14.3`, which is strictly
larger — the round-trip is not exact. -/
theorem nps_score_rounding_counterexample :
    (get_nps_distribution df7).Promoters = some (100/7) ∧
    (get_nps_distribution df7).Detractors = some 0 ∧
    calculate_nps_score df7 = some (143/10) ∧
    (100 : ℚ)/7 - 0 < 143/10 := by
  have hP : countLabel df7 "Promoter" = 1 := by decide
  have hD : countLabel df7 "Detractor" = 0 := by decide
  have hL : df7.length = 7 := by decide
  refine ⟨?_, ?_, ?_, by norm_num⟩
  · simp only [get_nps_distribution, hP, hL]
    norm_num [pctOf, pctVal]
  · simp only [get_nps_distribution, hD, hL]
    norm_num [pctOf, pctVal]
  · simp only [calculate_nps_score, hP, hD, hL]
    norm_num [round1, roundHalfEven]

/-- Claim C8 (amended): for every non-empty record set the overall NPS
score equals the Promoters percentage minus the Detractors percentage of
the distribution, rounded to one decimal place, and that value lies in
`[-100, 100]`. -/
theorem nps_score_is_rounded_diff (df : List Record) (hne : df ≠ []) :
    (get_nps_distribution df).Promoters =
      some (pctVal (countLabel df "Promoter") df.length) ∧
    (get_nps_distribution df).Detractors =
      some (pctVal (countLabel df "Detractor") df.length) ∧
    calculate_nps_score df =
      some (round1 (pctVal (countLabel df "Promoter") df.length -
        pctVal (countLabel df "Detractor") df.length)) ∧
    -100 ≤ round1 (pctVal (countLabel df "Promoter") df.length -
      pctVal (countLabel df "Detractor") df.length) ∧
    round1 (pctVal (countLabel df "Promoter") df.length -
      pctVal (countLabel df "Detractor") df.length) ≤ 100 := by
  have ht : df.length ≠ 0 := fun h => hne (List.length_eq_zero.mp h)
  have hd := get_nps_distribution_of_ne_nil df hne
  have h0P := pctVal_nonneg (countLabel df "Promoter") df.length
  have h0D := pctVal_nonneg (countLabel df "Detractor") df.length
  have h1P := pctVal_le_100 _ _ (countLabel_le_length df "Promoter") ht
  have h1D := pctVal_le_100 _ _ (countLabel_le_length df "Detractor") ht
  have hB := round1_bounds (pctVal (countLabel df "Promoter") df.length -
      pctVal (countLabel df "Detractor") df.length)
    (by linarith) (by linarith)
  have hx : (((countLabel df "Promoter" : ℚ) / (df.length : ℚ)) -
      ((countLabel df "Detractor" : ℚ) / (df.length : ℚ))) * 100 =
      pctVal (countLabel df "Promoter") df.length -
        pctVal (countLabel df "Detractor") df.length := by
    unfold pctVal
    ring
  refine ⟨?_, ?_, ?_, hB.1, hB.2⟩
  · rw [hd]
  · rw [hd]
  · simp only [calculate_nps_score, if_neg ht, hx]

/-- Witness for the amended C8 theorem at a one-Promoter record set. -/
theorem nps_score_is_rounded_diff_witness :
    (get_nps_distribution dfP).Promoters =
      some (pctVal (countLabel dfP "Promoter") dfP.length) ∧
    (get_nps_distribution dfP).Detractors =
      some (pctVal (countLabel dfP "Detractor") dfP.length) ∧
    calculate_nps_score dfP =
      some (round1 (pctVal (countLabel dfP "Promoter") dfP.length -
        pctVal (countLabel dfP "Detractor") dfP.length)) ∧
    -100 ≤ round1 (pctVal (countLabel dfP "Promoter") dfP.length -
      pctVal (countLabel dfP "Detractor") dfP.length) ∧
    round1 (pctVal (countLabel dfP "Promoter") dfP.length -
      pctVal (countLabel dfP "Detractor") dfP.length) ≤ 100 :=
  nps_score_is_rounded_diff dfP (by decide)

/-- Claim C9 counterexample: calling the feedback category aggregator on a
table whose category cells are absent rewrites them to the empty string in
place: the table after the call differs from the table before it. -/
theorem analyze_mutates_input_counterexample :
    ((analyze_feedback_categories_table [mkRecord none] ==
      [mkRecord none]) = false) ∧
    (analyze_feedback_categories_table [mkRecord none]).map
      (fun r => r.npsFeedbackCategories) = [some ""] ∧
    ([mkRecord none] : List Record).map
      (fun r => r.npsFeedbackCategories) = [none] := by
  decide

/-- Claim C9 (amended): the feedback category aggregator fills absent
category text with the empty string in its input table at call time (a
call-time, not load-time, normalization); it leaves the table unchanged
exactly when no category cell is absent.  The other aggregators do not
write to their input. -/
theorem analyze_preserves_table_when_filled (df : List Record)
    (h : df.all (fun r => r.npsFeedbackCategories.isSome &&
      r.improvementFeedbackCategories.isSome) = true) :
    analyze_feedback_categories_table df = df := by
  induction df with
  | nil => rfl
  | cons r t ih =>
    simp only [List.all_cons, Bool.and_eq_true] at h
    obtain ⟨⟨h1, h2⟩, htail⟩ := h
    have ht := ih htail
    have hfr : { r with
        npsFeedbackCategories := some (fillCat r.npsFeedbackCategories),
        improvementFeedbackCategories :=
          some (fillCat r.improvementFeedbackCategories) } = r := by
      cases r with
      | mk a b c d e =>
        cases d with
        | none => simp at h1
        | some n =>
          cases e with
          | none => simp at h2
          | some m => simp [fillCat]
    simp only [analyze_feedback_categories_table, List.map_cons] at ht ⊢
    rw [hfr, ht]

/-- Witness for the amended C9 theorem at a table with no absent category
cell. -/
theorem analyze_preserves_table_witness :
    analyze_feedback_categories_table [recFilled] = [recFilled] :=
  analyze_preserves_table_when_filled [recFilled] (by decide)

/-- Claim C10: a row with an unrecognized NPS Label is counted in the total
but in no bucket: on a non-empty record set containing such a row, each
percentage is still `count/total*100` for its exact label, and the three
percentages sum to strictly less than 100. -/
theorem nps_unrecognized_strictly_below_100 (df : List Record)
    (hne : df ≠ [])
    (hex : df.any (fun r => !(recognizedLabel r)) = true) :
    get_nps_distribution df =
      ⟨some (pctVal (countLabel df "Promoter") df.length),
       some (pctVal (countLabel df "Neutral") df.length),
       some (pctVal (countLabel df "Detractor") df.length)⟩ ∧
    pctVal (countLabel df "Promoter") df.length +
      pctVal (countLabel df "Neutral") df.length +
      pctVal (countLabel df "Detractor") df.length < 100 := by
  have ht : df.length ≠ 0 := fun h => hne (List.length_eq_zero.mp h)
  exact ⟨get_nps_distribution_of_ne_nil df hne,
    pct_sum_lt _ _ _ _ ht (counts_lt_of_unrecognized df hex)⟩

/-- Witness for the C10 theorem at one Promoter row plus one `Other` row. -/
theorem nps_unrecognized_strictly_below_100_witness :
    get_nps_distribution dfPO =
      ⟨some (pctVal (countLabel dfPO "Promoter") dfPO.length),
       some (pctVal (countLabel dfPO "Neutral") dfPO.length),
       some (pctVal (countLabel dfPO "Detractor") dfPO.length)⟩ ∧
    pctVal (countLabel dfPO "Promoter") dfPO.length +
      pctVal (countLabel dfPO "Neutral") dfPO.length +
      pctVal (countLabel dfPO "Detractor") dfPO.length < 100 :=
  nps_unrecognized_strictly_below_100 dfPO (by decide) (by decide)

end Childcare
